import Mathlib

/-!
Verification development for the Azure blob-metadata HTTP facade
(`src/web/app.py`).  The Python functions are shallowly embedded as Lean
definitions: environment lookups become an explicit `Env` record, the
storage backend becomes explicit call-outcome parameters, and Python
string truthiness is modelled by dedicated helpers.
-/

set_option maxRecDepth 4000

namespace BlobApp

/-- Python truthiness of an optional string: `None` and `""` are falsy. -/
def pyTruthy : Option String → Bool
  | some s => s ≠ ""
  | none => false

/-- Python `a or d` where `a` is an optional string and `d` a string. -/
def pyOrStr : Option String → String → String
  | some s, d => if s = "" then d else s
  | none, d => d

/-- Python `a or b` on optional strings (truthiness chain). -/
def pyOrOpt (a b : Option String) : Option String :=
  if pyTruthy a then a else b

/-- Python `str.split(sep)` for a one-character separator, on char lists. -/
def splitCharList (sep : Char) : List Char → List (List Char)
  | [] => [[]]
  | c :: rest =>
    match splitCharList sep rest with
    | [] => [[]]
    | g :: gs => if c = sep then [] :: g :: gs else (c :: g) :: gs

/-- Python `str.split(sep, 1)` restricted to the case where the separator
occurs: splits at the first occurrence; `none` when the separator is absent. -/
def splitOnceChar (sep : Char) : List Char → Option (List Char × List Char)
  | [] => none
  | c :: rest =>
    if c = sep then some ([], rest)
    else
      match splitOnceChar sep rest with
      | some (a, b) => some (c :: a, b)
      | none => none

/-- Python `pat in s` substring test, on char lists. -/
def containsSub (pat : List Char) : List Char → Bool
  | [] => pat.isEmpty
  | c :: rest => pat.isPrefixOf (c :: rest) || containsSub pat rest

/-- Python `s.startswith(pre)`. -/
def startswith (pre s : String) : Bool := pre.data.isPrefixOf s.data

/-- Python `s.lower()` (ASCII, which is all the source compares). -/
def lowerStr (s : String) : String := String.mk (s.data.map Char.toLower)

/-- Python `s.rstrip("/")`. -/
def rstripSlash (s : String) : String :=
  String.mk ((s.data.reverse.dropWhile (fun c => c = '/')).reverse)

/-- Helper for `replaceFirst`: replace the first occurrence of a non-empty
pattern in a char list. -/
def replaceFirstAux (pat repl : List Char) : List Char → List Char
  | [] => []
  | c :: rest =>
    if pat.isPrefixOf (c :: rest) then repl ++ (c :: rest).drop pat.length
    else c :: replaceFirstAux pat repl rest

/-- Python `s.replace(pat, repl, 1)`. -/
def replaceFirst (pat repl s : String) : String :=
  if pat.data.isEmpty then String.mk (repl.data ++ s.data)
  else String.mk (replaceFirstAux pat.data repl.data s.data)

/-- Process environment as read by `src/web/app.py` (`os.getenv`); a field is
`none` when the variable is unset. -/
structure Env where
  azure_storage_connection_string : Option String := none
  public_blob_base_url : Option String := none
  container_app_name : Option String := none
  container_app_env_dns_suffix : Option String := none
  website_site_name : Option String := none
  website_instance_id : Option String := none
  appsetting_website_site_name : Option String := none
  azurite_blob_host_port : Option String := none
  sas_expiry_minutes : Option String := none
  account_key : Option String := none
  blob_container : Option String := none
  azure_storage_container : Option String := none
deriving DecidableEq

/-- `_parse_conn_str` from `src/web/app.py`: split on `;`, keep the parts
containing `=`, split each at the first `=`.  (The `try` in the source can
never fire: splitting never raises for such parts.) -/
def parse_conn_str (conn : String) : List (String × String) :=
  (splitCharList (Char.ofNat 59) conn.data).filterMap fun p =>
    match splitOnceChar (Char.ofNat 61) p with
    | some (k, v) => some (String.mk k, String.mk v)
    | none => none

/-- Python `dict(pairs).get(k)`: the last binding of a key wins. -/
def dictGet (l : List (String × String)) (k : String) : Option String :=
  (l.reverse.find? (fun p => p.1 = k)).map (fun p => p.2)

/-- `is_azurite` from `src/web/app.py`. -/
def is_azurite (env : Env) : Bool :=
  let cs := env.azure_storage_connection_string.getD ""
  if startswith "UseDevelopmentStorage=true" cs then true
  else
    let parts := parse_conn_str cs
    let acct :=
      lowerStr (pyOrStr (pyOrOpt (dictGet parts "AccountName") (dictGet parts "accountname")) "")
    let blob_ep :=
      lowerStr (pyOrStr (pyOrOpt (dictGet parts "BlobEndpoint") (dictGet parts "blobendpoint")) "")
    acct = "devstoreaccount1" || containsSub "azurite".data blob_ep.data ||
      containsSub "127.0.0.1:10000".data blob_ep.data

/-- The `is_azure_production` test inside `blob_base_url`
(`src/web/app.py` lines 97-105): any deployment-marker variable is truthy, or
the connection string contains the production storage domain. -/
def is_azure_production (env : Env) : Bool :=
  pyTruthy env.container_app_name ||
  pyTruthy env.container_app_env_dns_suffix ||
  pyTruthy env.website_site_name ||
  pyTruthy env.website_instance_id ||
  pyTruthy env.appsetting_website_site_name ||
  containsSub "blob.core.windows.net".data
    (lowerStr (env.azure_storage_connection_string.getD "")).data

/-- `blob_base_url` from `src/web/app.py`. -/
def blob_base_url (env : Env) (account_name : String) : String :=
  let public_base := env.public_blob_base_url.getD ""
  if public_base ≠ "" then
    if !(startswith "http://" public_base || startswith "https://" public_base) then
      "https://" ++ rstripSlash public_base ++ "/" ++ account_name
    else if startswith "http://" public_base &&
        !containsSub "localhost".data public_base.data &&
        !containsSub "127.0.0.1".data public_base.data then
      rstripSlash (replaceFirst "http://" "https://" public_base) ++ "/" ++ account_name
    else
      rstripSlash public_base ++ "/" ++ account_name
  else
    let is_local_azurite := is_azurite env
    if is_local_azurite && !is_azure_production env then
      let host_port := env.azurite_blob_host_port.getD "10000"
      "http://127.0.0.1:" ++ host_port ++ "/" ++ account_name
    else
      "https://" ++ account_name ++ ".blob.core.windows.net"

/-! ## URL escaping (`urllib.parse.quote`) -/

/-- Upper-case hex digit for a value below 16. -/
def hexDigit (n : Nat) : Char :=
  if n < 10 then Char.ofNat (48 + n) else Char.ofNat (55 + n)

/-- Percent-encoding of one byte, `%XX` with upper-case hex. -/
def pctByte (b : Nat) : List Char :=
  [Char.ofNat 37, hexDigit (b / 16), hexDigit (b % 16)]

/-- UTF-8 byte sequence of one character, as natural numbers. -/
def utf8Bytes (c : Char) : List Nat :=
  let n := c.toNat
  if n < 128 then [n]
  else if n < 2048 then [192 + n / 64, 128 + n % 64]
  else if n < 65536 then [224 + n / 4096, 128 + (n / 64) % 64, 128 + n % 64]
  else [240 + n / 262144, 128 + (n / 4096) % 64, 128 + (n / 64) % 64, 128 + n % 64]

/-- Characters `urllib.parse.quote` leaves unescaped with the default
`safe="/"`: ASCII letters, digits, `_`, `.`, `-`, `~`, and `/`. -/
def quoteSafe (c : Char) : Bool :=
  (65 ≤ c.toNat && c.toNat ≤ 90) || (97 ≤ c.toNat && c.toNat ≤ 122) ||
  (48 ≤ c.toNat && c.toNat ≤ 57) ||
  c = '_' || c = '.' || c = '-' || c = '~' || c = '/'

/-- Python `urllib.parse.quote(s)` with its default `safe="/"`. -/
def quote (s : String) : String :=
  String.mk (s.data.foldr
    (fun c acc =>
      (if quoteSafe c then [c] else (utf8Bytes c).foldr (fun b bs => pctByte b ++ bs) []) ++ acc)
    [])

/-! ## Signed URLs (`make_sas`) -/

/-- `azure.storage.blob.BlobSasPermissions`; the source constructs it with
`read=True` and every other flag left at its `False` default. -/
structure BlobSasPermissions where
  read : Bool := false
  add : Bool := false
  create : Bool := false
  write : Bool := false
  delete : Bool := false
  tag : Bool := false
deriving DecidableEq

/-- The argument package the source hands to the external SDK when minting a
signed token.  A token exists only when an account key was resolved, so the
key is a plain string here. -/
structure SasToken where
  account_name : String
  container_name : String
  blob_name : String
  account_key : String
  permission : BlobSasPermissions
  expiry : Int
deriving DecidableEq

/-- Modelled from the spec: the external SDK function `generate_blob_sas`
(§4.5, "Generate a read-only signed token scoped to exactly that
container+blob pair and expiry") is not part of this repository; it is
modelled as packaging exactly the arguments the call site passes, and as
failing — §4.5 "Fails with `ConfigurationError` if no account key can be
resolved (no SAS is possible without a key …)", the SDK's `ValueError` —
when the `account_key` argument is `None`. -/
def generate_blob_sas (an cn bn : String) (key : Option String)
    (perm : BlobSasPermissions) (expiry : Int) : Except String SasToken :=
  match key with
  | none => Except.error "Either user_delegation_key or account_key must be provided."
  | some k => Except.ok ⟨an, cn, bn, k, perm, expiry⟩

/-- Modelled from the spec: the query-string rendering of the signed token
(the `token` appended after `?` in §4.5); the exact signature format lives in
the external SDK, so the rendering only exposes the token's fields. -/
def sas_token_string (t : SasToken) : String :=
  "sp=" ++ (if t.permission.read then "r" else "") ++
    (if t.permission.add then "a" else "") ++
    (if t.permission.create then "c" else "") ++
    (if t.permission.write then "w" else "") ++
    (if t.permission.delete then "d" else "") ++
    (if t.permission.tag then "t" else "") ++
  "&se=" ++ toString t.expiry ++ "&scope=" ++ t.container_name ++ "/" ++ t.blob_name

/-- `_account_key_from_conn_str` from `src/web/app.py`. -/
def account_key_from_conn_str : Option String → Option String
  | none => none
  | some conn =>
    if conn = "" then none
    else
      let parts := parse_conn_str conn
      pyOrOpt (dictGet parts "AccountKey") (dictGet parts "accountkey")

/-- Helper for `pyInt?`: value of a non-empty digit string. -/
def digitsValAux : List Char → Nat → Option Nat
  | [], acc => some acc
  | c :: rest, acc =>
    if 48 ≤ c.toNat && c.toNat ≤ 57 then digitsValAux rest (acc * 10 + (c.toNat - 48))
    else none

/-- Python `int(s)` on a decimal string (optional leading minus), `none`
when the call would raise `ValueError`. -/
def pyInt? (s : String) : Option Int :=
  match s.data with
  | [] => none
  | c :: rest =>
    if c = Char.ofNat 45 then
      match rest with
      | [] => none
      | _ => (digitsValAux rest 0).map (fun n => -(n : Int))
    else (digitsValAux s.data 0).map (fun n => (n : Int))

/-- A minted signed URL together with the token embedded in it. -/
structure SasResult where
  url : String
  token : SasToken
deriving DecidableEq

/-- `make_sas` from `src/web/app.py`.  `now` is the current UTC time in
seconds and `account_name` is the account the SDK client reports for the
connection string.  The two exceptions that can escape to the caller are
modelled as `Except.error` with the exception's message: `int()` raising on
the configured expiry-minutes variable, and the SDK raising when no account
key is resolved. -/
def make_sas (env : Env) (now : Int) (account_name : String)
    (container blob : String) (minutes : Option Int) : Except String SasResult :=
  let resolved_minutes :=
    match minutes with
    | some m => if m = 0 then pyInt? (env.sas_expiry_minutes.getD "5") else some m
    | none => pyInt? (env.sas_expiry_minutes.getD "5")
  match resolved_minutes with
  | none =>
    Except.error ("invalid literal for int() with base 10: \x27" ++
      env.sas_expiry_minutes.getD "5" ++ "\x27")
  | some m =>
    let expiry := now + m * 60
    let key := pyOrOpt env.account_key
      (account_key_from_conn_str env.azure_storage_connection_string)
    match generate_blob_sas account_name container blob key { read := true } expiry with
    | Except.error e => Except.error e
    | Except.ok sas =>
      Except.ok ⟨blob_base_url env account_name ++ "/" ++ container ++ "/" ++ quote blob ++
          "?" ++ sas_token_string sas,
        sas⟩

/-! ## Container provisioning (`ensure_container_exists`) -/

/-- Outcomes of the individual storage-backend calls `ensure_container_exists`
can make, one field per call site in the source. -/
structure ContainerBackend where
  get_container_properties : Except String Unit
  set_policy_after_props : Except String Unit
  create_container : Except String Unit
  set_policy_after_create : Except String Unit

/-- Python `try`/`except Exception` around an exception-throwing body. -/
def pyTry {α : Type} (body : Except String α) (handler : String → Except String α) :
    Except String α :=
  match body with
  | Except.ok a => Except.ok a
  | Except.error e => handler e

/-- The best-effort Azurite policy block `if is_azurite(): try ... except
Exception: pass` that appears twice in `ensure_container_exists`. -/
def azuritePolicyStep (env : Env) (call : Except String Unit) : Except String Unit :=
  if is_azurite env then pyTry call (fun _ => Except.ok ()) else Except.ok ()

/-- `ensure_container_exists` from `src/web/app.py`: probe the container,
best-effort set the public access policy for Azurite, create on probe failure,
and swallow every provisioning error, returning the container handle
(represented by its name). -/
def ensure_container_exists (env : Env) (b : ContainerBackend) (container_name : String) :
    Except String String :=
  pyTry
    (match b.get_container_properties with
     | Except.error e => Except.error e
     | Except.ok _ =>
       match azuritePolicyStep env b.set_policy_after_props with
       | Except.error e => Except.error e
       | Except.ok _ => Except.ok container_name)
    (fun _ =>
      pyTry
        (match b.create_container with
         | Except.error e => Except.error e
         | Except.ok _ =>
           match azuritePolicyStep env b.set_policy_after_create with
           | Except.error e => Except.error e
           | Except.ok _ => Except.ok container_name)
        (fun _ => Except.ok container_name))

/-! ## JSON values and response bodies -/

/-- Parsed JSON values, as Flask's `request.json` / `jsonify` see them. -/
inductive Json where
  | null : Json
  | bool : Bool → Json
  | num : Int → Json
  | str : String → Json
  | arr : List Json → Json
  | obj : List (String × Json) → Json

mutual

/-- Python `repr` of a parsed JSON value. -/
def pyRepr : Json → String
  | Json.null => "None"
  | Json.bool true => "True"
  | Json.bool false => "False"
  | Json.num n => toString n
  | Json.str s => "\x27" ++ s ++ "\x27"
  | Json.arr xs => "[" ++ pyReprList xs ++ "]"
  | Json.obj kvs => "\x7b" ++ pyReprObj kvs ++ "\x7d"

/-- `repr` of the elements of a JSON array, comma separated. -/
def pyReprList : List Json → String
  | [] => ""
  | [x] => pyRepr x
  | x :: y :: rest => pyRepr x ++ ", " ++ pyReprList (y :: rest)

/-- `repr` of the entries of a JSON object, comma separated. -/
def pyReprObj : List (String × Json) → String
  | [] => ""
  | [kv] => "\x27" ++ kv.1 ++ "\x27: " ++ pyRepr kv.2
  | kv :: kv2 :: rest => "\x27" ++ kv.1 ++ "\x27: " ++ pyRepr kv.2 ++ ", " ++ pyReprObj (kv2 :: rest)

end

/-- Python `str()` of a parsed JSON value (used when coercing metadata
values before storage). -/
def pyStr : Json → String
  | Json.str s => s
  | j => pyRepr j

/-- Python `dict.get` on a parsed JSON object (duplicate keys: last wins,
as in `json.loads`). -/
def jsonGet (kvs : List (String × Json)) (k : String) : Option Json :=
  (kvs.reverse.find? (fun p => p.1 = k)).map (fun p => p.2)

/-- The error envelope `jsonify({"error": message})`. -/
def errEnv (msg : String) : Json := Json.obj [("error", Json.str msg)]

/-- `None`-aware string field rendering: `null` for `None`. -/
def optStrJson : Option String → Json
  | some s => Json.str s
  | none => Json.null

/-- The Python type name reported by an `AttributeError` on this value. -/
def pyTypeName : Json → String
  | Json.null => "NoneType"
  | Json.bool _ => "bool"
  | Json.num _ => "int"
  | Json.str _ => "str"
  | Json.arr _ => "list"
  | Json.obj _ => "dict"

/-! ## Blob records mirrored from the backend -/

/-- `azure.storage.blob.ContentSettings` as reported by the backend;
each field may be absent (`None`). -/
structure ContentSettings where
  content_type : Option String := none
  content_encoding : Option String := none
  content_language : Option String := none
  cache_control : Option String := none
deriving DecidableEq

/-- Blob properties as returned by `get_blob_properties`. -/
structure BlobProps where
  size : Option Nat := none
  last_modified : Option String := none
  etag : Option String := none
  metadata : List (String × String) := []
  content_settings : ContentSettings := {}
  blob_type : Option String := none
  creation_time : Option String := none
deriving DecidableEq

/-- One item yielded by `container.list_blobs`; `content_settings` is
optional because the listing code guards it with
`hasattr(blob, "content_settings") and blob.content_settings`. -/
structure BlobInfo where
  name : String
  size : Option Nat := none
  last_modified : Option String := none
  metadata : List (String × String) := []
  content_settings : Option ContentSettings := none
  blob_type : Option String := none
  etag : Option String := none
deriving DecidableEq

/-- Python truthiness of an optional integer: `None` and `0` are falsy. -/
def pyTruthyNat : Option Nat → Bool
  | some n => n ≠ 0
  | none => false

/-- Last `/`-separated segment of a blob name (`name.split("/")[-1]`). -/
def lastSegment (s : String) : String :=
  match (splitCharList (Char.ofNat 47) s.data).getLast? with
  | some l => String.mk l
  | none => s

/-- `BLOB_CONTAINER` with `AZURE_STORAGE_CONTAINER` then `"uploads"` as
defaults, as every operation reads it. -/
def container_name (env : Env) : String :=
  env.blob_container.getD (env.azure_storage_container.getD "uploads")

/-! ## Content-type resolution of the three read operations -/

/-- The content type the List operation reports for one blob
(`src/web/app.py` lines 215-224): metadata `mime_type`, else the
backend content-settings content type when the attribute is present and
truthy, else the empty string. -/
def list_content_type (blob : BlobInfo) : String :=
  let ct0 := pyOrStr (dictGet blob.metadata "mime_type") ""
  match blob.content_settings with
  | some cs => pyOrStr (some ct0) (pyOrStr cs.content_type "")
  | none => ct0

/-- The `type` field the Get operation reports (`src/web/app.py` line 272):
metadata `mime_type`, else content-settings content type, else `""`. -/
def get_content_type (md : List (String × String)) (cs : ContentSettings) : String :=
  pyOrStr (dictGet md "mime_type") (pyOrStr cs.content_type "")

/-- The content type the View operation resolves
(`src/web/app.py` lines 379-393): metadata `mime_type`, else content-settings
content type, else a filename-extension guess, else
`application/octet-stream`. -/
def view_content_type (guess : String → Option String) (md : List (String × String))
    (cs : ContentSettings) (blob_name : String) : String :=
  let c1 := dictGet md "mime_type"
  let c2 := pyOrOpt c1 cs.content_type
  let c3 := pyOrOpt c2 (guess blob_name)
  pyOrStr c3 "application/octet-stream"

/-- The content-type resolution precedence exactly as the spec words it for
List, Get and View alike: explicit `mime_type` metadata key, else
backend-reported content-settings content type, else a guess from the
filename extension, else `application/octet-stream`.  Stated from the spec,
for comparison with the operation definitions above. -/
def spec_resolved_content_type (guess : String → Option String) (md : List (String × String))
    (cs : ContentSettings) (name : String) : String :=
  pyOrStr (pyOrOpt (pyOrOpt (dictGet md "mime_type") cs.content_type) (guess name))
    "application/octet-stream"

/-- The content type stored on upload (`src/web/app.py` lines 307-310):
extension guess first, else the client-supplied multipart content type, else
`application/octet-stream`. -/
def upload_content_type (guess : String → Option String) (filename : String)
    (client_content_type : Option String) : String :=
  pyOrStr (pyOrOpt (guess filename) client_content_type) "application/octet-stream"

/-- Modelled from the spec: the Python standard library's
extension-to-MIME-type table (`mimetypes.guess_type`), to which the source
delegates the filename-extension guess; a few common entries suffice for the
concrete instances below. -/
def ext_mime_table : List (String × String) :=
  [("pdf", "application/pdf"), ("txt", "text/plain"), ("html", "text/html"),
   ("png", "image/png"), ("jpg", "image/jpeg"), ("jpeg", "image/jpeg"),
   ("gif", "image/gif"), ("json", "application/json"), ("csv", "text/csv"),
   ("mp4", "video/mp4"), ("zip", "application/zip")]

/-- Modelled from the spec: `mimetypes.guess_type` — the lowercased text
after the final dot, looked up in the table; no dot means no guess. -/
def guess_type (filename : String) : Option String :=
  let groups := splitCharList (Char.ofNat 46) filename.data
  if groups.length ≤ 1 then none
  else
    match groups.getLast? with
    | some ext =>
      (ext_mime_table.find? (fun p => p.1 = String.mk (ext.map Char.toLower))).map (fun p => p.2)
    | none => none

/-! ## The HTTP operations -/

/-- One listed blob as `api_list_blobs` serializes it
(`src/web/app.py` lines 210-248). -/
def list_blob_item (cname : String) (blob : BlobInfo) : Json :=
  let md := blob.metadata
  let content_type := list_content_type blob
  let content_encoding :=
    match blob.content_settings with
    | some cs => pyOrStr cs.content_encoding ""
    | none => ""
  let content_language :=
    match blob.content_settings with
    | some cs => pyOrStr cs.content_language ""
    | none => ""
  let cache_control :=
    match blob.content_settings with
    | some cs => pyOrStr cs.cache_control ""
    | none => ""
  Json.obj [
    ("id", Json.str blob.name),
    ("name", Json.str (lastSegment blob.name)),
    ("size", Json.num (Int.ofNat (blob.size.getD 0))),
    ("type", Json.str content_type),
    ("lastModified", optStrJson blob.last_modified),
    ("metadata", Json.obj (md.map (fun kv => (kv.1, Json.str kv.2)))),
    ("blob_path", Json.str (cname ++ "/" ++ blob.name)),
    ("etag", optStrJson (if pyTruthy blob.etag then blob.etag else none)),
    ("contentType", Json.str content_type),
    ("contentEncoding", Json.str content_encoding),
    ("contentLanguage", Json.str content_language),
    ("cacheControl", Json.str cache_control),
    ("blobType", Json.str (pyOrStr blob.blob_type "BlockBlob"))]

/-- `api_list_blobs` from `src/web/app.py`: the `backend` argument is the
outcome of the storage interaction inside the `try` block (client creation,
provisioning probe, listing). -/
def api_list_blobs (env : Env) (backend : Except String (List BlobInfo)) : Nat × Json :=
  match backend with
  | Except.error e => (500, errEnv e)
  | Except.ok blobs =>
    (200, Json.obj [("blobs", Json.arr (blobs.map (list_blob_item (container_name env))))])

/-- `api_get_blob` from `src/web/app.py`: every exception in the `try` block
(not-found and backend failures alike) is mapped to HTTP 404. -/
def api_get_blob (env : Env) (blob_name : String) (backend : Except String BlobProps) :
    Nat × Json :=
  match backend with
  | Except.error e => (404, errEnv e)
  | Except.ok props =>
    let cs := props.content_settings
    let md := props.metadata
    (200, Json.obj [
      ("id", Json.str blob_name),
      ("name", Json.str (lastSegment blob_name)),
      ("size", Json.num (Int.ofNat (props.size.getD 0))),
      ("type", Json.str (get_content_type md cs)),
      ("lastModified", optStrJson props.last_modified),
      ("metadata", Json.obj (md.map (fun kv => (kv.1, Json.str kv.2)))),
      ("blob_path", Json.str (container_name env ++ "/" ++ blob_name)),
      ("etag", optStrJson (if pyTruthy props.etag then props.etag else none)),
      ("contentType", Json.str (pyOrStr cs.content_type (pyOrStr (dictGet md "mime_type") ""))),
      ("contentEncoding", Json.str (pyOrStr cs.content_encoding "")),
      ("contentLanguage", Json.str (pyOrStr cs.content_language "")),
      ("cacheControl", Json.str (pyOrStr cs.cache_control "")),
      ("blobType", Json.str (pyOrStr props.blob_type "BlockBlob")),
      ("creationTime", optStrJson props.creation_time)])

/-- One multipart file part (`request.files["file"]`). -/
structure FilePart where
  filename : String
  content_type : Option String := none
deriving DecidableEq

/-- `api_upload_blob` from `src/web/app.py`: missing part or empty filename
give 400 before the `try`; the backend upload is handed the resolved content
type and any exception maps to 500. -/
def api_upload_blob (guess : String → Option String) (file : Option FilePart)
    (backend : String → Except String Unit) : Nat × Json :=
  match file with
  | none => (400, errEnv "No file provided")
  | some f =>
    if f.filename = "" then (400, errEnv "Empty filename")
    else
      match backend (upload_content_type guess f.filename f.content_type) with
      | Except.error e => (500, errEnv e)
      | Except.ok _ =>
        (200, Json.obj [("message", Json.str "Uploaded successfully"),
                        ("filename", Json.str f.filename)])

/-- `api_update_metadata` from `src/web/app.py`.  `body` is the parsed JSON
request body; a non-object body makes `request.json.get` raise an
`AttributeError` inside the `try`, which the catch-all maps to 500, while an
object body whose `metadata` value is not an object is rejected with 400. -/
def api_update_metadata (body : Json)
    (backend : List (String × String) → Except String Unit) : Nat × Json :=
  match body with
  | Json.obj kvs =>
    let metadata := (jsonGet kvs "metadata").getD (Json.obj [])
    match metadata with
    | Json.obj mkvs =>
      let string_metadata := mkvs.map (fun kv => (kv.1, pyStr kv.2))
      match backend string_metadata with
      | Except.ok _ => (200, Json.obj [("message", Json.str "Metadata updated successfully")])
      | Except.error e => (500, errEnv e)
    | _ => (400, errEnv "Metadata must be a dictionary")
  | other =>
    (500, errEnv ("\x27" ++ pyTypeName other ++ "\x27 object has no attribute \x27get\x27"))

/-- `api_delete_blob` from `src/web/app.py`. -/
def api_delete_blob (backend : Except String Unit) : Nat × Json :=
  match backend with
  | Except.ok _ => (200, Json.obj [("message", Json.str "Blob deleted successfully")])
  | Except.error e => (500, errEnv e)

/-- `api_get_blob_url` from `src/web/app.py`: any exception inside `make_sas`
(`int()` failing on the expiry variable, or the SDK's no-account-key error)
maps to 500 with the error envelope. -/
def api_get_blob_url (env : Env) (now : Int) (account_name blob_name : String) : Nat × Json :=
  match make_sas env now account_name (container_name env) blob_name none with
  | Except.ok r => (200, Json.obj [("url", Json.str r.url)])
  | Except.error e => (500, errEnv e)

/-- The streaming response `api_view_blob` builds on success. -/
structure ViewResponse where
  status : Nat
  mimetype : String
  headers : List (String × String)
  chunks : List (List Nat)
deriving DecidableEq

/-- Result of the View operation: a streamed response or an error envelope. -/
inductive ViewResult where
  | stream : ViewResponse → ViewResult
  | err : Nat → Json → ViewResult

/-- `api_view_blob` from `src/web/app.py`: resolve the content type, stream
the downloaded chunks with the inline disposition, cache-control and nosniff
headers, attach `Content-Length` only when `props.size` is truthy, and map
every exception in the `try` block to HTTP 404. -/
def api_view_blob (guess : String → Option String) (blob_name : String)
    (props_backend : Except String BlobProps)
    (download_backend : Except String (List (List Nat))) : ViewResult :=
  match props_backend with
  | Except.error e => ViewResult.err 404 (errEnv e)
  | Except.ok props =>
    let md := props.metadata
    let content_type := view_content_type guess md props.content_settings blob_name
    match download_backend with
    | Except.error e => ViewResult.err 404 (errEnv e)
    | Except.ok chunks =>
      let filename := lastSegment blob_name
      let base_headers :=
        [("Content-Disposition",
          "inline; filename=\"" ++ filename ++ "\"; filename*=UTF-8\x27\x27" ++ quote filename),
         ("Cache-Control", "public, max-age=3600"),
         ("X-Content-Type-Options", "nosniff")]
      let headers :=
        if pyTruthyNat props.size then
          base_headers ++ [("Content-Length", toString (props.size.getD 0))]
        else base_headers
      ViewResult.stream ⟨200, content_type, headers, chunks⟩

/-- The header list of a View result (empty for the error case). -/
def viewHeaders : ViewResult → List (String × String)
  | ViewResult.stream r => r.headers
  | ViewResult.err _ _ => []

/-- Whether a View result streams content. -/
def isStream : ViewResult → Bool
  | ViewResult.stream _ => true
  | ViewResult.err _ _ => false

/-! ## Helper lemmas -/

theorem pyOrStr_of_truthy (a : Option String) (d1 d2 : String) (h : pyTruthy a = true) :
    pyOrStr a d1 = pyOrStr a d2 := by
  cases a with
  | none => simp [pyTruthy] at h
  | some s =>
    simp [pyTruthy] at h
    simp [pyOrStr, h]

theorem pyOrStr_of_not_truthy (a : Option String) (d : String) (h : pyTruthy a = false) :
    pyOrStr a d = d := by
  cases a with
  | none => simp [pyOrStr]
  | some s =>
    simp [pyTruthy] at h
    simp [pyOrStr, h]

theorem pyOrOpt_of_truthy (a b : Option String) (h : pyTruthy a = true) :
    pyOrOpt a b = a := by
  simp [pyOrOpt, h]

theorem pyOrOpt_of_not_truthy (a b : Option String) (h : pyTruthy a = false) :
    pyOrOpt a b = b := by
  simp [pyOrOpt, h]

theorem pyOrStr_some_pyOrStr (a : Option String) (x : String) :
    pyOrStr (some (pyOrStr a "")) x = pyOrStr a x := by
  cases a with
  | none => simp [pyOrStr]
  | some s =>
    by_cases h : s = "" <;> simp [pyOrStr, h]

theorem str_data_append (a b : String) : (a ++ b).data = a.data ++ b.data := rfl

theorem isPrefixOf_append_left (p a b : List Char) (h : p.isPrefixOf a = true) :
    p.isPrefixOf (a ++ b) = true := by
  induction p generalizing a with
  | nil => simp only [List.isPrefixOf]
  | cons x p' ih =>
    cases a with
    | nil =>
      simp only [List.isPrefixOf] at h
      exact Bool.noConfusion h
    | cons y a' =>
      simp only [List.cons_append, List.isPrefixOf, Bool.and_eq_true, beq_iff_eq] at h ⊢
      exact ⟨h.1, ih a' h.2⟩

theorem isPrefixOf_self_append (p b : List Char) : p.isPrefixOf (p ++ b) = true := by
  induction p with
  | nil => simp only [List.isPrefixOf]
  | cons x p' ih =>
    simp only [List.cons_append, List.isPrefixOf, Bool.and_eq_true, beq_iff_eq]
    exact ⟨trivial, ih⟩

theorem startswith_append (p a b : String) (h : startswith p a = true) :
    startswith p (a ++ b) = true := by
  unfold startswith at h ⊢
  rw [str_data_append]
  exact isPrefixOf_append_left _ _ _ h

theorem mem_of_isPrefixOf {c : Char} (p s : List Char) (h : p.isPrefixOf s = true)
    (hc : c ∈ p) : c ∈ s := by
  induction p generalizing s with
  | nil => simp at hc
  | cons x p' ih =>
    cases s with
    | nil =>
      simp only [List.isPrefixOf] at h
      exact Bool.noConfusion h
    | cons y s' =>
      simp only [List.isPrefixOf, Bool.and_eq_true, beq_iff_eq] at h
      rcases List.mem_cons.mp hc with h1 | h2
      · exact List.mem_cons.mpr (Or.inl (h1.trans h.1))
      · exact List.mem_cons.mpr (Or.inr (ih s' h.2 h2))

theorem mem_of_containsSub {c : Char} (p s : List Char) (h : containsSub p s = true)
    (hc : c ∈ p) : c ∈ s := by
  induction s with
  | nil =>
    simp [containsSub, List.isEmpty_iff] at h
    subst h; simp at hc
  | cons y s' ih =>
    simp only [containsSub, Bool.or_eq_true] at h
    rcases h with h1 | h2
    · exact mem_of_isPrefixOf _ _ h1 hc
    · exact List.mem_cons.mpr (Or.inr (ih h2))

theorem dropWhile_ne_nil_of_mem {c : Char} (l : List Char) (hc : c ∈ l)
    (hne : c ≠ '/') : l.dropWhile (fun x => x = '/') ≠ [] := by
  induction l with
  | nil => simp at hc
  | cons y l' ih =>
    by_cases hy : y = '/'
    · subst hy
      rcases List.mem_cons.mp hc with h1 | h2
      · exact absurd h1 hne
      · simpa [List.dropWhile] using ih h2
    · simp [List.dropWhile, hy]

theorem rstrip_list_append (pre rest : List Char)
    (h : rest.reverse.dropWhile (fun x => x = '/') ≠ []) :
    ((pre ++ rest).reverse.dropWhile (fun x => x = '/')).reverse =
      pre ++ (rest.reverse.dropWhile (fun x => x = '/')).reverse := by
  have hfalse : (rest.reverse.dropWhile (fun x => x = '/')).isEmpty = false := by
    cases hd : (rest.reverse.dropWhile (fun x => x = '/')).isEmpty
    · rfl
    · exact absurd (List.isEmpty_iff.mp hd) h
  rw [List.reverse_append, List.dropWhile_append, hfalse]
  simp [List.reverse_append]

theorem exists_append_of_isPrefixOf (p s : List Char) (h : p.isPrefixOf s = true) :
    ∃ t, s = p ++ t := by
  induction p generalizing s with
  | nil => exact ⟨s, rfl⟩
  | cons x p' ih =>
    cases s with
    | nil =>
      simp only [List.isPrefixOf] at h
      exact Bool.noConfusion h
    | cons y s' =>
      simp only [List.isPrefixOf, Bool.and_eq_true, beq_iff_eq] at h
      rcases ih s' h.2 with ⟨t, ht⟩
      exact ⟨t, by simp [h.1, ht]⟩

theorem replaceFirstAux_at_head (pat repl s : List Char) (hne : pat ≠ [])
    (h : pat.isPrefixOf s = true) :
    replaceFirstAux pat repl s = repl ++ s.drop pat.length := by
  cases s with
  | nil =>
    cases pat with
    | nil => exact absurd rfl hne
    | cons x p' => simp [List.isPrefixOf] at h
  | cons c rest => simp [replaceFirstAux, h]

theorem not_http_of_https (pb : String) (h : startswith "https://" pb = true) :
    startswith "http://" pb = false := by
  obtain ⟨t, ht⟩ := exists_append_of_isPrefixOf _ _ h
  unfold startswith
  rw [ht]
  rfl

theorem getD_empty_of_not_truthy (a : Option String) (h : pyTruthy a = false) :
    a.getD "" = "" := by
  cases a with
  | none => rfl
  | some s =>
    simp [pyTruthy] at h
    simp [h]

/-! ## Claim C4: production classification precedence -/

/-- C4 counterexample: in an environment where both a production marker
(`CONTAINER_APP_NAME`) and an emulator marker (the `devstoreaccount1`
account) hold but a public-base override is configured, `blob_base_url`
returns the override-derived `http://` URL, not the
`https://{account}.blob.core.windows.net` form the claim promises for every
such environment. -/
theorem c4_production_precedence_cex :
    is_azure_production
      { public_blob_base_url := some "http://127.0.0.1:10000",
        container_app_name := some "app",
        azure_storage_connection_string := some "AccountName=devstoreaccount1;AccountKey=k" } = true
    ∧ is_azurite
      { public_blob_base_url := some "http://127.0.0.1:10000",
        container_app_name := some "app",
        azure_storage_connection_string := some "AccountName=devstoreaccount1;AccountKey=k" } = true
    ∧ blob_base_url
      { public_blob_base_url := some "http://127.0.0.1:10000",
        container_app_name := some "app",
        azure_storage_connection_string := some "AccountName=devstoreaccount1;AccountKey=k" }
      "devstoreaccount1" = "http://127.0.0.1:10000/devstoreaccount1"
    ∧ blob_base_url
      { public_blob_base_url := some "http://127.0.0.1:10000",
        container_app_name := some "app",
        azure_storage_connection_string := some "AccountName=devstoreaccount1;AccountKey=k" }
      "devstoreaccount1" ≠ "https://devstoreaccount1.blob.core.windows.net" := by
  decide

/-- C4 amended: with no public-base override configured, whenever both a
production classification signal and an emulator classification signal hold,
`blob_base_url` classifies as production and returns the
`https://{account}.blob.core.windows.net` form, never the emulator `http://`
form. -/
theorem c4_production_precedence_amended (env : Env) (account : String)
    (hov : pyTruthy env.public_blob_base_url = false)
    (hprod : is_azure_production env = true)
    (hemu : is_azurite env = true) :
    blob_base_url env account = "https://" ++ account ++ ".blob.core.windows.net"
    ∧ startswith "https://" (blob_base_url env account) = true := by
  have hpb := getD_empty_of_not_truthy _ hov
  have heq : blob_base_url env account = "https://" ++ account ++ ".blob.core.windows.net" := by
    simp [blob_base_url, hpb, hprod]
  refine ⟨heq, ?_⟩
  unfold startswith
  rw [heq, str_data_append, str_data_append, List.append_assoc]
  exact isPrefixOf_self_append _ _

/-- C4 witness: a connection string carrying both the production domain and
the emulator account name classifies as production. -/
theorem c4_production_precedence_witness :
    blob_base_url
      { azure_storage_connection_string :=
          some "AccountName=devstoreaccount1;BlobEndpoint=https://acc.blob.core.windows.net" }
      "devstoreaccount1" = "https://devstoreaccount1.blob.core.windows.net" := by
  have h := c4_production_precedence_amended
    { azure_storage_connection_string :=
        some "AccountName=devstoreaccount1;BlobEndpoint=https://acc.blob.core.windows.net" }
    "devstoreaccount1" (by decide) (by decide) (by decide)
  exact h.1.trans (by decide)

/-! ## Claim C5: emulator classification and base URL -/

/-- C5 counterexample: with the development-storage shortcut and no
production marker, the derived base URL is
`http://127.0.0.1:10000/devstoreaccount1` — the account name is appended —
not the bare `http://127.0.0.1:10000` the claim states. -/
theorem c5_emulator_base_url_cex :
    is_azurite { azure_storage_connection_string := some "UseDevelopmentStorage=true" } = true
    ∧ is_azure_production
        { azure_storage_connection_string := some "UseDevelopmentStorage=true" } = false
    ∧ blob_base_url { azure_storage_connection_string := some "UseDevelopmentStorage=true" }
        "devstoreaccount1" = "http://127.0.0.1:10000/devstoreaccount1"
    ∧ blob_base_url { azure_storage_connection_string := some "UseDevelopmentStorage=true" }
        "devstoreaccount1" ≠ "http://127.0.0.1:10000" := by
  decide

/-- C5 amended: with no public-base override, an emulator marker and no
production marker, the derived base URL is
`http://127.0.0.1:{port}/{account}` with the port taken from
`AZURITE_BLOB_HOST_PORT` (default `10000`). -/
theorem c5_emulator_base_url_amended (env : Env) (account : String)
    (hov : pyTruthy env.public_blob_base_url = false)
    (hemu : is_azurite env = true)
    (hprod : is_azure_production env = false) :
    blob_base_url env account =
      "http://127.0.0.1:" ++ env.azurite_blob_host_port.getD "10000" ++ "/" ++ account := by
  have hpb := getD_empty_of_not_truthy _ hov
  simp [blob_base_url, hpb, hemu, hprod]

/-- C5 witness: the configurable port variable is honoured. -/
theorem c5_emulator_base_url_witness :
    blob_base_url
      { azure_storage_connection_string := some "UseDevelopmentStorage=true",
        azurite_blob_host_port := some "11000" } "devstoreaccount1" =
      "http://127.0.0.1:11000/devstoreaccount1" := by
  have h := c5_emulator_base_url_amended
    { azure_storage_connection_string := some "UseDevelopmentStorage=true",
      azurite_blob_host_port := some "11000" }
    "devstoreaccount1" (by decide) (by decide) (by decide)
  exact h.trans (by decide)

/-! ## Claim C6: public-base override handling -/

/-- C6: with an explicit public-base override configured, the derived base
URL uses the override: a scheme-less override is upgraded to `https://`; an
`http://` override that mentions neither `localhost` nor `127.0.0.1` (the
source's notion of explicitly targeting a loopback/local host) has its
scheme upgraded to `https://`; an `http://` override naming a loopback host
is kept as `http://`. -/
theorem c6_public_base_override (env : Env) (account pb : String)
    (hpb : env.public_blob_base_url = some pb) (hne : pb ≠ "") :
    (startswith "http://" pb = false → startswith "https://" pb = false →
      blob_base_url env account = "https://" ++ rstripSlash pb ++ "/" ++ account
      ∧ startswith "https://" (blob_base_url env account) = true)
    ∧ (startswith "http://" pb = true →
       containsSub "localhost".data pb.data = false →
       containsSub "127.0.0.1".data pb.data = false →
       blob_base_url env account =
         rstripSlash (replaceFirst "http://" "https://" pb) ++ "/" ++ account
       ∧ ((∃ c ∈ pb.data.drop 7, c ≠ '/') →
           startswith "https://" (blob_base_url env account) = true))
    ∧ (startswith "http://" pb = true →
       (containsSub "localhost".data pb.data = true ∨
        containsSub "127.0.0.1".data pb.data = true) →
       blob_base_url env account = rstripSlash pb ++ "/" ++ account
       ∧ startswith "http://" (blob_base_url env account) = true)
    ∧ (startswith "https://" pb = true →
       blob_base_url env account = rstripSlash pb ++ "/" ++ account) := by
  refine ⟨?_, ?_, ?_, ?_⟩
  · intro h1 h2
    have heq : blob_base_url env account = "https://" ++ rstripSlash pb ++ "/" ++ account := by
      simp [blob_base_url, hpb, hne, h1, h2]
    refine ⟨heq, ?_⟩
    unfold startswith
    rw [heq, str_data_append, str_data_append, str_data_append,
        List.append_assoc, List.append_assoc]
    exact isPrefixOf_self_append _ _
  · intro h1 h2 h3
    have heq : blob_base_url env account =
        rstripSlash (replaceFirst "http://" "https://" pb) ++ "/" ++ account := by
      simp [blob_base_url, hpb, hne, h1, h2, h3]
    refine ⟨heq, ?_⟩
    rintro ⟨c, hc, hcs⟩
    have hrepl : replaceFirst "http://" "https://" pb =
        String.mk ("https://".data ++ pb.data.drop 7) := by
      unfold replaceFirst
      rw [if_neg (by decide)]
      rw [replaceFirstAux_at_head _ _ _ (by decide) h1]
      rfl
    have hdw : (pb.data.drop 7).reverse.dropWhile (fun x => x = '/') ≠ [] :=
      dropWhile_ne_nil_of_mem _ (List.mem_reverse.mpr hc) hcs
    have hstrip : rstripSlash (String.mk ("https://".data ++ pb.data.drop 7)) =
        String.mk ("https://".data ++
          ((pb.data.drop 7).reverse.dropWhile (fun x => x = '/')).reverse) := by
      unfold rstripSlash
      rw [show (String.mk ("https://".data ++ pb.data.drop 7)).data =
            "https://".data ++ pb.data.drop 7 from rfl]
      rw [rstrip_list_append _ _ hdw]
    unfold startswith
    rw [heq, hrepl, hstrip, str_data_append, str_data_append,
        show (String.mk ("https://".data ++
          ((pb.data.drop 7).reverse.dropWhile (fun x => x = '/')).reverse)).data =
          "https://".data ++
          ((pb.data.drop 7).reverse.dropWhile (fun x => x = '/')).reverse from rfl,
        List.append_assoc, List.append_assoc]
    exact isPrefixOf_self_append _ _
  · intro h1 h2
    have hcond : (startswith "http://" pb &&
        !containsSub "localhost".data pb.data &&
        !containsSub "127.0.0.1".data pb.data) = false := by
      rcases h2 with h2 | h2 <;> simp [h2]
    have heq : blob_base_url env account = rstripSlash pb ++ "/" ++ account := by
      simp only [blob_base_url, hpb, Option.getD_some]
      rw [if_pos hne, if_neg (by simp [h1]), if_neg (by simp [hcond])]
    refine ⟨heq, ?_⟩
    obtain ⟨t, ht⟩ := exists_append_of_isPrefixOf _ _ h1
    have hc : ∃ c, c ∈ t ∧ c ≠ '/' := by
      rcases h2 with h2 | h2
      · have hl : 'l' ∈ pb.data := mem_of_containsSub _ _ h2 (by decide)
        rw [ht] at hl
        rcases List.mem_append.mp hl with hl | hl
        · exact absurd hl (by decide)
        · exact ⟨'l', hl, by decide⟩
      · have hl : '1' ∈ pb.data := mem_of_containsSub _ _ h2 (by decide)
        rw [ht] at hl
        rcases List.mem_append.mp hl with hl | hl
        · exact absurd hl (by decide)
        · exact ⟨'1', hl, by decide⟩
    obtain ⟨c, hct, hcs⟩ := hc
    have hdw : t.reverse.dropWhile (fun x => x = '/') ≠ [] :=
      dropWhile_ne_nil_of_mem _ (List.mem_reverse.mpr hct) hcs
    have hstrip : rstripSlash pb =
        String.mk ("http://".data ++ (t.reverse.dropWhile (fun x => x = '/')).reverse) := by
      unfold rstripSlash
      rw [show pb.data = "http://".data ++ t from ht]
      rw [rstrip_list_append _ _ hdw]
    unfold startswith
    rw [heq, hstrip, str_data_append, str_data_append,
        show (String.mk ("http://".data ++
          (t.reverse.dropWhile (fun x => x = '/')).reverse)).data =
          "http://".data ++ (t.reverse.dropWhile (fun x => x = '/')).reverse from rfl,
        List.append_assoc, List.append_assoc]
    exact isPrefixOf_self_append _ _
  · intro h1
    have h0 := not_http_of_https pb h1
    simp [blob_base_url, hpb, hne, h1, h0]

/-- C6 witness: a non-loopback `http://` override is upgraded to `https://`,
keeping the override's host. -/
theorem c6_public_base_override_witness :
    blob_base_url { public_blob_base_url := some "http://cdn.example.com/" } "acct" =
      "https://cdn.example.com/acct"
    ∧ startswith "https://"
        (blob_base_url { public_blob_base_url := some "http://cdn.example.com/" } "acct") = true := by
  have h := (c6_public_base_override { public_blob_base_url := some "http://cdn.example.com/" }
      "acct" "http://cdn.example.com/" rfl (by decide)).2.1 (by decide) (by decide) (by decide)
  exact ⟨h.1.trans (by decide), h.2 (by decide)⟩

/-! ## Claim C7: default-TTL signed URLs -/

/-- C7: whenever an account key resolves (from the `ACCOUNT_KEY` override or
the connection string — without one the SDK raises and no URL is issued),
a signed-URL request with the default TTL (no explicit minutes, no
expiry-minutes variable) succeeds; the token's expiry is exactly now + 5
minutes (hence within [now, now + 5 min]), its permission is read-only,
it is scoped to exactly the requested container and blob and signed with the
resolved key, and the final URL is
`{resolved base URL}/{container}/{url-escaped blob name}?{token}`. -/
theorem c7_make_sas_default_ttl (env : Env) (now : Int) (account container blob k : String)
    (henv : env.sas_expiry_minutes = none)
    (hkey : pyOrOpt env.account_key
        (account_key_from_conn_str env.azure_storage_connection_string) = some k) :
    ∃ r : SasResult, make_sas env now account container blob none = Except.ok r
      ∧ r.token.expiry = now + 5 * 60
      ∧ now ≤ r.token.expiry ∧ r.token.expiry ≤ now + 5 * 60
      ∧ r.token.permission = { read := true }
      ∧ r.token.container_name = container
      ∧ r.token.blob_name = blob
      ∧ r.token.account_name = account
      ∧ r.token.account_key = k
      ∧ r.url = blob_base_url env account ++ "/" ++ container ++ "/" ++ quote blob ++
          "?" ++ sas_token_string r.token := by
  have hmake : make_sas env now account container blob none = Except.ok
      ⟨blob_base_url env account ++ "/" ++ container ++ "/" ++ quote blob ++ "?" ++
         sas_token_string ⟨account, container, blob, k, { read := true }, now + 5 * 60⟩,
       ⟨account, container, blob, k, { read := true }, now + 5 * 60⟩⟩ := by
    simp only [make_sas, henv, Option.getD_none, hkey, generate_blob_sas]
    rfl
  exact ⟨_, hmake, rfl, (by omega : now ≤ now + 5 * 60), (by omega : now + 5 * 60 ≤ now + 5 * 60),
    rfl, rfl, rfl, rfl, rfl, rfl⟩

/-- C7 witness at a concrete environment (connection string carrying an
account key) and time. -/
theorem c7_make_sas_default_ttl_witness :
    ∃ r : SasResult,
      make_sas { azure_storage_connection_string := some "AccountName=devstoreaccount1;AccountKey=Zm9v" }
        1000 "devstoreaccount1" "uploads" "my report.pdf" none = Except.ok r
      ∧ r.token.expiry = 1000 + 5 * 60
      ∧ (1000 : Int) ≤ r.token.expiry ∧ r.token.expiry ≤ 1000 + 5 * 60
      ∧ r.token.permission = { read := true }
      ∧ r.token.container_name = "uploads"
      ∧ r.token.blob_name = "my report.pdf"
      ∧ r.token.account_name = "devstoreaccount1"
      ∧ r.token.account_key = "Zm9v"
      ∧ r.url = blob_base_url { azure_storage_connection_string := some "AccountName=devstoreaccount1;AccountKey=Zm9v" } "devstoreaccount1" ++ "/" ++ "uploads" ++ "/" ++ quote "my report.pdf" ++ "?" ++ sas_token_string r.token :=
  c7_make_sas_default_ttl
    { azure_storage_connection_string := some "AccountName=devstoreaccount1;AccountKey=Zm9v" }
    1000 "devstoreaccount1" "uploads" "my report.pdf" "Zm9v" rfl (by decide)

/-! ## Claim C8: container provisioning never raises -/

theorem ensure_ok (env : Env) (b : ContainerBackend) (cname : String) :
    ensure_container_exists env b cname = Except.ok cname := by
  rcases b with ⟨p, s1, c, s2⟩
  rcases hp : p with e | u <;> rcases hc : c with e2 | u2 <;>
    rcases h : is_azurite env <;>
      rcases hs1 : s1 with e3 | u3 <;> rcases hs2 : s2 with e4 | u4 <;>
        simp [ensure_container_exists, azuritePolicyStep, pyTry, h]

/-- C8: for every container name and every combination of outcomes of the
backend calls (properties probe, creation, both access-policy attempts —
covering a concurrent double-ensure race where creation fails), each of two
ensure-container calls returns the usable handle and never raises. -/
theorem c8_ensure_container_never_raises (env : Env) (b1 b2 : ContainerBackend)
    (cname : String) :
    ensure_container_exists env b1 cname = Except.ok cname
    ∧ ensure_container_exists env b2 cname = Except.ok cname :=
  ⟨ensure_ok env b1 cname, ensure_ok env b2 cname⟩

/-! ## Claim C1: content-type resolution across List, Get and View -/

/-- C1 counterexample: a blob named `report.pdf` with no `mime_type`
metadata and no backend-reported content type resolves to
`application/pdf` on View (which applies the four-step precedence) but to
the empty string on List and Get (which stop after the content-settings
step), so the precedence is not applied identically on all three
operations. -/
theorem c1_content_type_precedence_cex :
    list_content_type { name := "report.pdf", metadata := [], content_settings := some {} } = ""
    ∧ get_content_type [] {} = ""
    ∧ view_content_type guess_type [] {} "report.pdf" = "application/pdf"
    ∧ spec_resolved_content_type guess_type [] {} "report.pdf" = "application/pdf"
    ∧ list_content_type { name := "report.pdf", metadata := [], content_settings := some {} } ≠
        view_content_type guess_type [] {} "report.pdf" := by
  decide

/-- C1 amended: View resolves the content type by the spec's four-step
precedence, while List and Get resolve only by `mime_type` metadata then the
backend content-settings content type, falling back to the empty string
(no extension guess, no `application/octet-stream` step); consequently the
three operations agree whenever the metadata key or the backend content type
is set, and on blobs with neither, List and Get report `""`. -/
theorem c1_content_type_resolution_amended (guess : String → Option String)
    (md : List (String × String)) (cs : ContentSettings) (n : String) (b : BlobInfo)
    (hbm : b.metadata = md) (hbc : b.content_settings = some cs) :
    view_content_type guess md cs n = spec_resolved_content_type guess md cs n
    ∧ (pyTruthy (pyOrOpt (dictGet md "mime_type") cs.content_type) = true →
        list_content_type b = get_content_type md cs
        ∧ get_content_type md cs = view_content_type guess md cs n)
    ∧ (pyTruthy (pyOrOpt (dictGet md "mime_type") cs.content_type) = false →
        list_content_type b = "" ∧ get_content_type md cs = "") := by
  have hlist : list_content_type b = get_content_type md cs := by
    unfold list_content_type get_content_type
    rw [hbm, hbc]
    exact pyOrStr_some_pyOrStr _ _
  refine ⟨rfl, ?_, ?_⟩
  · intro h
    refine ⟨hlist, ?_⟩
    simp only [get_content_type, view_content_type]
    by_cases h1 : pyTruthy (dictGet md "mime_type") = true
    · rw [pyOrOpt_of_truthy _ _ h1, pyOrOpt_of_truthy _ _ h1]
      exact pyOrStr_of_truthy _ _ _ h1
    · rw [Bool.not_eq_true] at h1
      rw [pyOrOpt_of_not_truthy _ _ h1] at h ⊢
      rw [pyOrStr_of_not_truthy _ _ h1, pyOrOpt_of_truthy _ _ h]
      exact pyOrStr_of_truthy _ _ _ h
  · intro h
    have h1 : pyTruthy (dictGet md "mime_type") = false := by
      by_cases h1 : pyTruthy (dictGet md "mime_type") = true
      · rw [pyOrOpt_of_truthy _ _ h1] at h
        rw [h1] at h
        exact Bool.noConfusion h
      · exact Bool.not_eq_true _ |>.mp h1
    rw [pyOrOpt_of_not_truthy _ _ h1] at h
    have hget : get_content_type md cs = "" := by
      simp only [get_content_type]
      rw [pyOrStr_of_not_truthy _ _ h1, pyOrStr_of_not_truthy _ _ h]
    exact ⟨hlist.trans hget, hget⟩

/-- C1 witness: with an explicit `mime_type` metadata key present, List, Get
and View agree. -/
theorem c1_content_type_resolution_witness :
    list_content_type { name := "a.bin", metadata := [("mime_type", "text/plain")], content_settings := some {} } = get_content_type [("mime_type", "text/plain")] {}
    ∧ get_content_type [("mime_type", "text/plain")] {} =
        view_content_type guess_type [("mime_type", "text/plain")] {} "a.bin" :=
  (c1_content_type_resolution_amended guess_type [("mime_type", "text/plain")] {} "a.bin"
    { name := "a.bin", metadata := [("mime_type", "text/plain")], content_settings := some {} }
    rfl rfl).2.1 (by decide)

/-! ## Claim C2: metadata update with a non-mapping body -/

/-- C2 counterexample: a PUT body that is a JSON array (not a string-keyed
mapping) makes `request.json.get` raise inside the catch-all, so the
operation returns HTTP 500, not the HTTP 400 the claim requires. -/
theorem c2_update_metadata_array_body_cex :
    (api_update_metadata (Json.arr []) (fun _ => Except.ok ())).1 = 500
    ∧ (api_update_metadata (Json.arr []) (fun _ => Except.ok ())).1 ≠ 400 :=
  ⟨rfl, by decide⟩

/-- C2 amended: a body that is a JSON object whose `metadata` value is not a
mapping is rejected with HTTP 400 and the error envelope; but a body that is
itself not a JSON object (for example a JSON array) raises inside the
catch-all and yields HTTP 500. -/
theorem c2_update_metadata_amended (kvs : List (String × Json)) (m body : Json)
    (backend backend2 : List (String × String) → Except String Unit)
    (hm : jsonGet kvs "metadata" = some m) (hnm : ∀ l, m ≠ Json.obj l)
    (hb : ∀ l, body ≠ Json.obj l) :
    api_update_metadata (Json.obj kvs) backend = (400, errEnv "Metadata must be a dictionary")
    ∧ (api_update_metadata body backend2).1 = 500 := by
  constructor
  · cases m with
    | obj l => exact absurd rfl (hnm l)
    | null => simp only [api_update_metadata]; rw [hm]; rfl
    | bool b => simp only [api_update_metadata]; rw [hm]; rfl
    | num n => simp only [api_update_metadata]; rw [hm]; rfl
    | str s => simp only [api_update_metadata]; rw [hm]; rfl
    | arr xs => simp only [api_update_metadata]; rw [hm]; rfl
  · cases body with
    | obj l => exact absurd rfl (hb l)
    | null => rfl
    | bool b2 => rfl
    | num n => rfl
    | str s => rfl
    | arr xs => rfl

/-- C2 witness: an object body with an array `metadata` value gets 400; an
array body gets 500. -/
theorem c2_update_metadata_witness :
    api_update_metadata (Json.obj [("metadata", Json.arr [])]) (fun _ => Except.ok ()) =
      (400, errEnv "Metadata must be a dictionary")
    ∧ (api_update_metadata (Json.str "nope") (fun _ => Except.ok ())).1 = 500 :=
  c2_update_metadata_amended [("metadata", Json.arr [])] (Json.arr []) (Json.str "nope")
    (fun _ => Except.ok ()) (fun _ => Except.ok ()) rfl
    (fun _ h => Json.noConfusion h) (fun _ h => Json.noConfusion h)

/-! ## Claim C3: error-status mapping at the operation boundaries -/

/-- C3 counterexample: a storage-client failure that is not a not-found case
(the backend being unreachable) during Get-by-name or View is mapped to HTTP
404 with the error envelope, not the HTTP 500 the claim requires. -/
theorem c3_backend_error_status_cex :
    (api_get_blob {} "report.pdf" (Except.error "backend unreachable")).1 = 404
    ∧ (api_get_blob {} "report.pdf" (Except.error "backend unreachable")).1 ≠ 500
    ∧ api_view_blob guess_type "report.pdf" (Except.error "backend unreachable")
        (Except.ok []) = ViewResult.err 404 (errEnv "backend unreachable") :=
  ⟨rfl, by decide, rfl⟩

/-- C3 amended: every storage-client exception is caught at the operation
boundary and mapped to the JSON envelope `{"error": message}` — with status
500 for List, Upload, Update-metadata and Delete, but status 404 (not 500)
for Get-by-name and View, which map every exception, backend errors
included, to 404. -/
theorem c3_error_mapping_amended (env env2 : Env) (now : Int) (e bn account : String)
    (guess : String → Option String) (fp : FilePart) (mkvs : List (String × Json))
    (dl : Except String (List (List Nat)))
    (hf : fp.filename ≠ "")
    (hsas : make_sas env2 now account (container_name env2) bn none = Except.error e) :
    api_list_blobs env (Except.error e) = (500, errEnv e)
    ∧ api_upload_blob guess (some fp) (fun _ => Except.error e) = (500, errEnv e)
    ∧ api_update_metadata (Json.obj [("metadata", Json.obj mkvs)]) (fun _ => Except.error e) =
        (500, errEnv e)
    ∧ api_delete_blob (Except.error e) = (500, errEnv e)
    ∧ api_get_blob_url env2 now account bn = (500, errEnv e)
    ∧ api_get_blob env bn (Except.error e) = (404, errEnv e)
    ∧ api_view_blob guess bn (Except.error e) dl = ViewResult.err 404 (errEnv e) := by
  refine ⟨rfl, ?_, rfl, rfl, ?_, rfl, rfl⟩
  · simp only [api_upload_blob]
    rw [if_neg hf]
  · simp only [api_get_blob_url, hsas]

/-- C3 witness: a failing backend during upload yields 500; a failing
`make_sas` (unparsable expiry variable) during Get-URL yields 500; during
Get-by-name the same failure message yields 404. -/
theorem c3_error_mapping_witness :
    api_upload_blob guess_type (some { filename := "a.txt" })
        (fun _ => Except.error "invalid literal for int() with base 10: \x27soon\x27") =
      (500, errEnv "invalid literal for int() with base 10: \x27soon\x27")
    ∧ api_get_blob_url { sas_expiry_minutes := some "soon" } 0 "acct" "a.txt" =
        (500, errEnv "invalid literal for int() with base 10: \x27soon\x27")
    ∧ api_get_blob {} "a.txt"
        (Except.error "invalid literal for int() with base 10: \x27soon\x27") =
      (404, errEnv "invalid literal for int() with base 10: \x27soon\x27") := by
  have h := c3_error_mapping_amended {} { sas_expiry_minutes := some "soon" } 0
    "invalid literal for int() with base 10: \x27soon\x27" "a.txt" "acct" guess_type
    { filename := "a.txt" } [] (Except.ok []) (by decide) rfl
  exact ⟨h.2.1, h.2.2.2.2.1, h.2.2.2.2.2.1⟩

/-! ## Claim C9: the View response -/

/-- C9 counterexample: an existing blob whose size is known to be zero is
streamed without a `Content-Length` header (`if props.size:` is false for
0), contradicting the claim that the header is present whenever the size is
known, including zero. -/
theorem c9_view_zero_size_cex :
    isStream (api_view_blob guess_type "file.bin" (Except.ok { size := some 0 })
        (Except.ok [])) = true
    ∧ (viewHeaders (api_view_blob guess_type "file.bin" (Except.ok { size := some 0 })
        (Except.ok []))).map Prod.fst =
      ["Content-Disposition", "Cache-Control", "X-Content-Type-Options"] := by
  decide

/-- C9 amended: for every existing blob, View streams the downloaded chunks
with the resolved content type, a `Content-Disposition` header that begins
with `inline`, a `Cache-Control: public, max-age=3600` header, and a
`Content-Length` header exactly when the blob's size is known and nonzero
(a size of zero or unknown omits the header); a failing lookup (including
not-found) yields HTTP 404 with the error envelope. -/
theorem c9_view_response_amended (guess : String → Option String) (bn e : String)
    (props : BlobProps) (chunks : List (List Nat)) (dl : Except String (List (List Nat))) :
    api_view_blob guess bn (Except.error e) dl = ViewResult.err 404 (errEnv e)
    ∧ ∃ r : ViewResponse,
        api_view_blob guess bn (Except.ok props) (Except.ok chunks) = ViewResult.stream r
        ∧ r.status = 200
        ∧ r.mimetype = view_content_type guess props.metadata props.content_settings bn
        ∧ r.chunks = chunks
        ∧ (∃ v, ("Content-Disposition", v) ∈ r.headers ∧ startswith "inline" v = true)
        ∧ ("Cache-Control", "public, max-age=3600") ∈ r.headers
        ∧ (pyTruthyNat props.size = true →
            ("Content-Length", toString (props.size.getD 0)) ∈ r.headers)
        ∧ (pyTruthyNat props.size = false →
            r.headers.map Prod.fst =
              ["Content-Disposition", "Cache-Control", "X-Content-Type-Options"]) := by
  have hsw : startswith "inline"
      ("inline; filename=\"" ++ lastSegment bn ++ "\"; filename*=UTF-8\x27\x27" ++
        quote (lastSegment bn)) = true := by
    have h0 : startswith "inline" "inline; filename=\"" = true := by decide
    exact startswith_append _ _ _ (startswith_append _ _ _ (startswith_append _ _ _ h0))
  refine ⟨rfl, ?_⟩
  by_cases hsz : pyTruthyNat props.size = true
  · refine ⟨⟨200, view_content_type guess props.metadata props.content_settings bn,
      [("Content-Disposition",
        "inline; filename=\"" ++ lastSegment bn ++ "\"; filename*=UTF-8\x27\x27" ++
          quote (lastSegment bn)),
       ("Cache-Control", "public, max-age=3600"),
       ("X-Content-Type-Options", "nosniff"),
       ("Content-Length", toString (props.size.getD 0))], chunks⟩,
      ?_, rfl, rfl, rfl, ⟨_, List.mem_cons_self _ _, hsw⟩,
      List.mem_cons_of_mem _ (List.mem_cons_self _ _),
      fun _ => List.mem_cons_of_mem _ (List.mem_cons_of_mem _
        (List.mem_cons_of_mem _ (List.mem_cons_self _ _))),
      fun hfalse => by rw [hfalse] at hsz; exact Bool.noConfusion hsz⟩
    simp only [api_view_blob]
    rw [if_pos hsz]
    rfl
  · refine ⟨⟨200, view_content_type guess props.metadata props.content_settings bn,
      [("Content-Disposition",
        "inline; filename=\"" ++ lastSegment bn ++ "\"; filename*=UTF-8\x27\x27" ++
          quote (lastSegment bn)),
       ("Cache-Control", "public, max-age=3600"),
       ("X-Content-Type-Options", "nosniff")], chunks⟩,
      ?_, rfl, rfl, rfl, ⟨_, List.mem_cons_self _ _, hsw⟩,
      List.mem_cons_of_mem _ (List.mem_cons_self _ _),
      fun htrue => absurd htrue hsz,
      fun _ => rfl⟩
    simp only [api_view_blob]
    rw [if_neg hsz]

/-- C9 witness: a blob of known nonzero size streams with `Content-Length`
and the cache-control header. -/
theorem c9_view_response_witness :
    ∃ r : ViewResponse,
      api_view_blob guess_type "notes.txt" (Except.ok { size := some 11 })
        (Except.ok [[104, 105]]) = ViewResult.stream r
      ∧ ("Content-Length", "11") ∈ r.headers
      ∧ ("Cache-Control", "public, max-age=3600") ∈ r.headers := by
  obtain ⟨-, r, hr, -, -, -, -, hcc, hcl, -⟩ := c9_view_response_amended guess_type "notes.txt"
    "x" { size := some 11 } [[104, 105]] (Except.ok [])
  exact ⟨r, hr, hcl (by decide), hcc⟩

/-! ## Claim C10: upload content-type resolution -/

/-- C10: the stored content type on upload is the filename-extension guess
when one exists (a client-supplied multipart content type never overrides
it); the client-supplied content type is used only when the guess fails, and
`application/octet-stream` is the final fallback. -/
theorem c10_upload_content_type (guess : String → Option String) (fn : String)
    (cct : Option String) :
    (pyTruthy (guess fn) = true → ∀ t, guess fn = some t →
      upload_content_type guess fn cct = t)
    ∧ (pyTruthy (guess fn) = false → pyTruthy cct = true →
        ∀ s, cct = some s → upload_content_type guess fn cct = s)
    ∧ (pyTruthy (guess fn) = false → pyTruthy cct = false →
        upload_content_type guess fn cct = "application/octet-stream") := by
  refine ⟨?_, ?_, ?_⟩
  · intro h t ht
    simp only [upload_content_type]
    rw [pyOrOpt_of_truthy _ _ h, ht]
    rw [ht] at h
    simp only [pyTruthy, ne_eq, decide_eq_true_eq] at h
    simp [pyOrStr, h]
  · intro h1 h2 s hs
    simp only [upload_content_type]
    rw [pyOrOpt_of_not_truthy _ _ h1, hs]
    rw [hs] at h2
    simp only [pyTruthy, ne_eq, decide_eq_true_eq] at h2
    simp [pyOrStr, h2]
  · intro h1 h2
    simp only [upload_content_type]
    rw [pyOrOpt_of_not_truthy _ _ h1]
    exact pyOrStr_of_not_truthy _ _ h2

/-- C10 witness: a `.pdf` upload stores `application/pdf` even when the
client sends `text/plain`; with no guess and no client type the stored type
is `application/octet-stream`. -/
theorem c10_upload_content_type_witness :
    upload_content_type guess_type "report.pdf" (some "text/plain") = "application/pdf"
    ∧ upload_content_type guess_type "report" none = "application/octet-stream" :=
  ⟨(c10_upload_content_type guess_type "report.pdf" (some "text/plain")).1 (by decide)
      "application/pdf" (by decide),
   (c10_upload_content_type guess_type "report" none).2.2 (by decide) (by decide)⟩

end BlobApp
